import Mathlib

/-!
# Ghast: application bootstrap (pkg/app/app.go, pkg/controllers/controller.go)

A shallow embedding of the Go code with explicit state passing.

* Pointers (`*Container`, `*http.Server`, `*jet.Set`) are natural-number addresses into
  heaps held by `World`; they are non-nil unless wrapped in `Option`.
* A Go closure captures variables, not values.  Every closure that app.go hands to
  `Container.Bind` has the body `return x` for one captured variable `x` and ignores its
  container argument, so a producer is the address of the captured variable cell.
* `for k, v := range configs` declares `k` and `v` once for the whole loop (the language
  rule for modules that declare a Go version below 1.22; the project dates from Go 1.13,
  the version its scaffold writes into go.mod).  Each iteration assigns to the same `v`.
* Calls on external collaborators (router, HTTP server, response writer, templates) are
  recorded in `World.trace`.  Output on stdout (`fmt.Printf`) is not recorded.
-/

namespace Ghast

/-! ## Data model -/

/-- A `ghastRouter.Router` value; `id` stands for its route table. -/
structure Router where
  id : Nat
deriving DecidableEq, Repr

/-- Values of the interface type `http.Handler`. -/
inductive Handler where
  | nil
  | router (r : Router)
  | other (id : Nat)
deriving DecidableEq, Repr

/-- The `http.Server` descriptor.  `Hooks` stands for the pointer- and function-valued
fields (TLSConfig, TLSNextProto, ConnState, ErrorLog, BaseContext, ConnContext). -/
structure Server where
  Addr : String
  Handler : Handler
  ReadTimeout : Int
  ReadHeaderTimeout : Int
  WriteTimeout : Int
  IdleTimeout : Int
  MaxHeaderBytes : Int
  Hooks : Nat
deriving DecidableEq, Repr

/-- DebugOptions of app.go. -/
structure DebugOptions where
  ShouldDebugConfig : Bool
deriving DecidableEq, Repr

/-- The `App` struct of app.go: container pointer, server descriptor pointer (nil = none),
view set pointer, debug options. -/
structure App where
  c : Nat
  serverConfig : Option Nat
  views : Nat
  debugOptions : DebugOptions
deriving DecidableEq, Repr

/-- Values of type `interface{}` that travel through the container. -/
inductive Value where
  | nil
  | str (s : String)
  | int (i : Int)
  | bool (b : Bool)
  | router (r : Router)
  | app (a : App)
deriving DecidableEq, Repr

/-- A producer closure `func(c *Container) interface{} { return x }`: the address of the
captured variable `x`. -/
structure Producer where
  captured : Nat
deriving DecidableEq, Repr

/-- The key to producer mapping owned by a container. -/
abbrev Container := List (String × Producer)

/-- A `*jet.Template` handle. -/
structure Template where
  id : Nat
deriving DecidableEq, Repr

/-- A `jet.VarMap`: the variables a caller passes to a template. -/
abbrev VarMap := List (String × Value)

/-- Calls on external collaborators, in program order. -/
inductive Event where
  | defaultServer (r : Router)
  | setDIContainer (r : Router) (c : Nat)
  | listenAndServe (s : Nat) (descriptor : Server)
  | getTemplate (views : Nat) (name : String)
  | writeHeader (status : Nat)
  | write (bytes : String)
  | execute (t : Option Template)
deriving DecidableEq, Repr

/-- How a call ends. -/
inductive Exit where
  | returned
  | serving
  | fatal
  | panic (msg : String)
deriving DecidableEq, Repr

/-- Program state: heaps of containers, captured variables and server descriptors, allocation
counters, the package variable `AppContext` (the container stored under "ghast/container"),
and the trace of external calls. -/
structure World where
  containers : Nat → Container
  nextContainer : Nat
  vars : Nat → Value
  nextVar : Nat
  servers : Nat → Server
  nextServer : Nat
  nextViewSet : Nat
  appContext : Option Nat
  trace : List Event

/-- What the surroundings of the program answer: the flattened config map
(`config.Parse` then `config.ParsedConfigToContainerKeys`) as the list of its entries in the
order `range` visits them, the descriptor `router.DefaultServer()` builds, whether
`ListenAndServe` ever returns, and the jet view set: `getTemplate` answers the pair
(template, err != nil), `execute` answers `none` when `Execute` panics and otherwise the
bytes written to the response writer and whether the returned error is non-nil. -/
structure Env where
  parseFails : Bool
  flattenFails : Bool
  configs : List (String × Value)
  defaultServer : Router → Server
  listenReturns : Bool
  getTemplate : Nat → String → Option Template × Bool
  execute : Option Template → VarMap → Value → Option (String × Bool)

deriving instance DecidableEq for Except

/-- Point update of a heap. -/
def upd {α : Type} (f : Nat → α) (a : Nat) (v : α) : Nat → α :=
  fun x => if x = a then v else f x

/-- The zero-valued `http.Server`. -/
def Server.zero : Server := ⟨"", Handler.nil, 0, 0, 0, 0, 0, 0⟩

/-- A world in which nothing has been allocated. -/
def World.empty : World :=
  ⟨fun _ => [], 0, fun _ => Value.nil, 0, fun _ => Server.zero, 0, 0, none, []⟩

/-! ## Container (pkg/container) -/

/-- Modelled from the spec: `Container.Bind` of pkg/container, which is not among the sources.
"registers producer under key, overwriting any existing binding"; the producer is not invoked. -/
def Container.Bind (c : Container) (key : String) (p : Producer) : Container :=
  (key, p) :: c.filter (fun e => e.1 != key)

/-- Modelled from the spec: the lookup half of `Container.Make`. -/
def Container.find (c : Container) (key : String) : Option Producer :=
  (c.lookup key)

/-- Modelled from the spec: `Container.Make` of pkg/container, which is not among the sources.
"looks up the binding; if present, invokes the producer ... and returns the result ...; if
absent, fails with UnboundKeyError(key)".  Invoking a producer reads its captured variable. -/
def Make (w : World) (c : Nat) (key : String) : Except String Value :=
  match (w.containers c).find key with
  | some p => Except.ok (w.vars p.captured)
  | none => Except.error key

/-- The call `c.Bind(key, func(..) { return x })` on the container at address `c`. -/
def Bind (w : World) (c : Nat) (key : String) (p : Producer) : World :=
  { w with containers := upd w.containers c ((w.containers c).Bind key p) }

/-- Declare a fresh variable holding `v`; returns its address. -/
def declare (w : World) (v : Value) : Nat × World :=
  (w.nextVar, { w with vars := upd w.vars w.nextVar v, nextVar := w.nextVar + 1 })

/-- Assignment `x = v` to the variable at `cell`. -/
def assign (w : World) (cell : Nat) (v : Value) : World :=
  { w with vars := upd w.vars cell v }

/-- Append an external call to the trace. -/
def emit (w : World) (e : Event) : World :=
  { w with trace := w.trace ++ [e] }

/-! ## app.go -/

/-- Container key of the router binding. -/
def routerKey : String := "ghast/router"

/-- Container key of the application instance binding. -/
def appKey : String := "ghast/app"

/-- Container key Start reads the port from. -/
def portKey : String := "@ghast.config.port"

/-- The key `"@"+k` under which Build binds the flattened config key `k`. -/
def configKey (k : String) : String := "@" ++ k

/-- Message of both `log.Panic` calls in NewAppWithConfig. -/
def configPanic : String :=
  "Unable to bind your yaml config into the Ghast Container. Please ensure that your config is valid YAML"

/-- One iteration of `for k, v := range configs`: the loop assigns the entry's value to the
loop variable at `cell`, then the body binds `"@"+k` to a closure returning that variable. -/
def bindStep (c cell : Nat) (w : World) (e : String × Value) : World :=
  Bind (assign w cell e.2) c (configKey e.1) ⟨cell⟩

/-- The loop `for k, v := range configs { container.Bind("@"+k, func(..) { return v }) }`:
`v` is declared once, before the first iteration. -/
def bindConfigs (c : Nat) (configs : List (String × Value)) (w : World) : World :=
  let d := declare w Value.nil
  configs.foldl (bindStep c d.1) d.2

/-- NewAppWithConfig of app.go. -/
def NewAppWithConfig (env : Env) (debugOptions : DebugOptions) (w : World) :
    Except String App × World :=
  -- views = jet.NewHTMLSet(..); container := NewContainer()
  let views := w.nextViewSet
  let container := w.nextContainer
  let w1 : World := { w with
    nextViewSet := w.nextViewSet + 1,
    containers := upd w.containers container [],
    nextContainer := w.nextContainer + 1 }
  if env.parseFails then (Except.error configPanic, w1)
  else if env.flattenFails then (Except.error configPanic, w1)
  else
    let w2 := bindConfigs container env.configs w1
    let w3 : World := { w2 with appContext := some container }
    (Except.ok ⟨container, none, views, debugOptions⟩, w3)

/-- NewApp of app.go. -/
def NewApp (env : Env) (w : World) : Except String App × World :=
  NewAppWithConfig env ⟨false⟩ w

/-- Message of the `log.Panic` in Start. -/
def routerPanic : String :=
  "Router was not bound to DI container. Did you call SetRouter on your app?"

/-- Runtime panic of a failed single-result type assertion. -/
def conversionPanic : String := "interface conversion"

/-- GetApp of app.go: `c.Make("ghast/app").(App)`, an unchecked narrowing. -/
def GetApp (w : World) (c : Nat) : Except String App :=
  match Make w c appKey with
  | Except.ok (Value.app a) => Except.ok a
  | _ => Except.error conversionPanic

/-- The call `router.DefaultServer()`: the router builds a new descriptor. -/
def DefaultServer (env : Env) (r : Router) (w : World) : Nat × World :=
  (w.nextServer,
    emit { w with servers := upd w.servers w.nextServer (env.defaultServer r),
                  nextServer := w.nextServer + 1 } (Event.defaultServer r))

/-- The assignment `s.Handler = h` through the pointer `s`. -/
def setHandler (w : World) (s : Nat) (h : Handler) : World :=
  { w with servers := upd w.servers s { w.servers s with Handler := h } }

/-- The assignment `s.Addr = addr` through the pointer `s`. -/
def setAddr (w : World) (s : Nat) (addr : String) : World :=
  { w with servers := upd w.servers s { w.servers s with Addr := addr } }

/-- The method Start of app.go.  A failed resolution of the router (unbound key, or a value
that is not a Router) ends the call at lines 95-98; a port value that is not a string makes
the narrowing on line 110 panic before `s.Addr` is assigned.  `serving`: ListenAndServe
does not return; `fatal`: it returned and `log.Fatal` ended the process. -/
def App.Start (env : Env) (a : App) (w : World) : Exit × World :=
  match Make w a.c routerKey with
  | Except.ok (Value.router router) =>
    let sel : Nat × World :=
      match a.serverConfig with
      | none => DefaultServer env router w
      | some p => (p, w)
    let s := sel.1
    let w1 := setHandler sel.2 s (Handler.router router)
    match Make w1 a.c portKey with
    | Except.ok (Value.str port) =>
      let w2 := setAddr w1 s (":" ++ port)
      let d := declare w2 (Value.app a)
      let w3 := Bind d.2 a.c appKey ⟨d.1⟩
      let w4 := emit w3 (Event.setDIContainer router a.c)
      let w5 := emit w4 (Event.listenAndServe s (w4.servers s))
      (if env.listenReturns then Exit.fatal else Exit.serving, w5)
    | _ => (Exit.panic conversionPanic, w1)
  | _ => (Exit.panic routerPanic, w)

/-- The method SetServerConfig of app.go, `func (a App) ...  { a.serverConfig = config }`.
The receiver is passed by value, so the assignment changes the copy local to the call: the
first component is that copy when the call ends (it is dropped on return), the second is
the world the caller continues in. -/
def App.SetServerConfig (a : App) (config : Option Nat) (w : World) : App × World :=
  ({ a with serverConfig := config }, w)

/-- The method GetViewSet of app.go. -/
def App.GetViewSet (a : App) : Nat := a.views

/-- The method SetRouter of app.go: binds a closure returning the parameter `router`.
The receiver is a copy, but `a.c` is a pointer: the bind reaches the shared container. -/
def App.SetRouter (a : App) (router : Router) (w : World) : World :=
  let d := declare w (Value.router router)
  Bind d.2 a.c routerKey ⟨d.1⟩

/-! ## controller.go -/

/-- The method Container of GhastController:
`AppContext.Value("ghast/container").(*Container)`. -/
def GhastController.Container (w : World) : Except String Nat :=
  match w.appContext with
  | some c => Except.ok c
  | none => Except.error conversionPanic

/-- The method View of GhastController.  After the `if err != nil` block that writes the
status there is no return: control continues with `tmpl.Execute`. -/
def GhastController.View (env : Env) (name : String) (vars : VarMap) (contextualData : Value)
    (w : World) : Exit × World :=
  match GhastController.Container w with
  | Except.error m => (Exit.panic m, w)
  | Except.ok c =>
    match GetApp w c with
    | Except.error m => (Exit.panic m, w)
    | Except.ok a =>
      let r := env.getTemplate a.GetViewSet name
      let w1 := emit w (Event.getTemplate a.GetViewSet name)
      let w2 := if r.2 then emit w1 (Event.writeHeader 500) else w1
      let w3 := emit w2 (Event.execute r.1)
      match env.execute r.1 vars contextualData with
      | none => (Exit.panic "Execute", w3)
      | some out =>
        let w4 := if out.1 = "" then w3 else emit w3 (Event.write out.1)
        let w5 := if out.2 then emit w4 (Event.writeHeader 500) else w4
        (Exit.returned, w5)

/-! ## Reading aids for the statements -/

/-- The address of the descriptor Start works on: the explicit one when the receiver carries
one, else the address at which the router's default descriptor is allocated. -/
def usedServer (a : App) (w : World) : Nat :=
  match a.serverConfig with
  | none => w.nextServer
  | some p => p

/-- The contents of that descriptor before Start writes to it. -/
def usedDescriptor (env : Env) (a : App) (w : World) (r : Router) : Server :=
  match a.serverConfig with
  | none => env.defaultServer r
  | some p => w.servers p

/-- The router calls Start makes while choosing the descriptor. -/
def selectionCalls (a : App) (r : Router) : List Event :=
  match a.serverConfig with
  | none => [Event.defaultServer r]
  | some _ => []

/-- The caller's `&http.Server{...}`: allocates a descriptor with contents `d`. -/
def newServer (w : World) (d : Server) : Nat × World :=
  (w.nextServer,
    { w with servers := upd w.servers w.nextServer d, nextServer := w.nextServer + 1 })

/-! ## Sample programs -/

/-- Surroundings whose flattened config map is `configs`: the router's default descriptor
carries 15 second timeouts, ListenAndServe keeps serving, no template can be found and
`Execute` on the nil template panics. -/
def sampleEnv (configs : List (String × Value)) : Env :=
  ⟨false, false, configs, fun _ => ⟨":80", Handler.other 0, 15, 0, 15, 0, 0, 0⟩, false,
    fun _ _ => (none, true), fun t _ _ => match t with | none => none | some _ => some ("", false)⟩

/-- The config `ghast: config: port: "9000"` after flattening. -/
def portConfig : List (String × Value) := [("ghast.config.port", Value.str "9000")]

/-- The `ghast: config: port: 9000` section of the scaffolded config.yml (yamlTemplate of
cmd/new.go) after flattening with scalar types preserved: the unquoted 9000 is an integer. -/
def intPortConfig : List (String × Value) := [("ghast.config.port", Value.int 9000)]

/-- The App that `NewApp()` returns in the empty world. -/
def sampleApp : App := ⟨0, none, 0, ⟨false⟩⟩

/-- The world after `app := NewApp()` with the port config. -/
def builtWorld : World := (NewApp (sampleEnv portConfig) World.empty).2

/-- The world after `app := NewApp(); app.SetRouter(Router 1)`. -/
def readyWorld : World := sampleApp.SetRouter ⟨1⟩ builtWorld

/-- A caller-built descriptor `&http.Server{Addr: ":8080", Handler: h7, ReadTimeout: 5, ...}`. -/
def customServer : Server := ⟨":8080", Handler.other 7, 5, 5, 5, 5, 1024, 3⟩

/-- The world after `app := NewApp(); app.SetRouter(Router 1); cfg := &http.Server{...}`;
the descriptor `cfg` lives at address 0. -/
def configuredWorld : World := (newServer readyWorld customServer).2

/-- An App value whose serverConfig field points at the descriptor at address 0. -/
def explicitApp : App := ⟨0, some 0, 0, ⟨false⟩⟩

/-- The world of the running sample application: `NewApp(); SetRouter(Router 1); Start()`. -/
def runningWorld : World := (sampleApp.Start (sampleEnv portConfig) readyWorld).2

/-- The world after `app := NewApp(); app.SetRouter(Router 1)` with the integer port. -/
def intPortWorld : World :=
  sampleApp.SetRouter ⟨1⟩ (NewApp (sampleEnv intPortConfig) World.empty).2

/-- A flattened config map with two entries, the layout of the scaffolded config.yml with a
quoted port, in one of the two orders `range` may visit it. -/
def twoEntries : List (String × Value) :=
  [("ghast.config.port", Value.str "9000"), ("app.config.appName", Value.str "demo")]

/-! ## Container and key lemmas -/

theorem lookup_filter_ne (c : Container) (k k' : String) (h : k' ≠ k) :
    (c.filter (fun e => e.1 != k)).lookup k' = c.lookup k' := by
  induction c with
  | nil => rfl
  | cons e t ih =>
    obtain ⟨a, p⟩ := e
    by_cases hk : a = k
    · subst hk
      have hne : (k' == a) = false := by simpa using h
      simp [List.filter, List.lookup, hne, ih]
    · have hk2 : (a != k) = true := by simpa using hk
      simp only [List.filter, hk2, List.lookup, ih]

theorem find_Bind_same (c : Container) (k : String) (p : Producer) :
    (c.Bind k p).find k = some p := by
  simp [Container.Bind, Container.find, List.lookup]

theorem find_Bind_other (c : Container) (k k' : String) (p : Producer) (h : k' ≠ k) :
    (c.Bind k p).find k' = c.find k' := by
  have hne : (k' == k) = false := by simpa using h
  simp [Container.Bind, Container.find, List.lookup, hne, lookup_filter_ne c k k' h]

theorem configKey_data (k : String) : (configKey k).data = '@' :: k.data := by
  simp [configKey]

theorem configKey_ne_routerKey (k : String) : configKey k ≠ routerKey := by
  intro h
  have h2 := congrArg String.data h
  rw [configKey_data] at h2
  simp [routerKey] at h2

theorem configKey_ne_appKey (k : String) : configKey k ≠ appKey := by
  intro h
  have h2 := congrArg String.data h
  rw [configKey_data] at h2
  simp [appKey] at h2

theorem configKey_inj (k k' : String) (h : configKey k = configKey k') : k = k' := by
  have h2 := congrArg String.data h
  rw [configKey_data, configKey_data] at h2
  exact String.ext (List.cons.inj h2).2

@[simp] theorem Make_emit (w : World) (e : Event) (c : Nat) (k : String) :
    Make (emit w e) c k = Make w c k := rfl

@[simp] theorem Make_setHandler (w : World) (s : Nat) (h : Handler) (c : Nat) (k : String) :
    Make (setHandler w s h) c k = Make w c k := rfl

@[simp] theorem Make_setAddr (w : World) (s : Nat) (h : String) (c : Nat) (k : String) :
    Make (setAddr w s h) c k = Make w c k := rfl

@[simp] theorem Make_DefaultServer (env : Env) (r : Router) (w : World) (c : Nat) (k : String) :
    Make (DefaultServer env r w).2 c k = Make w c k := rfl

/-- Resolving the key that was just bound reads the captured variable. -/
theorem Make_Bind_same (w : World) (c : Nat) (k : String) (p : Producer) :
    Make (Bind w c k p) c k = Except.ok (w.vars p.captured) := by
  simp [Make, Bind, upd, find_Bind_same]

/-! ## The config loop of NewAppWithConfig -/

/-- After the loop the loop variable holds the value of the entry visited last. -/
theorem foldl_bindStep_vars (c cell : Nat) (es : List (String × Value)) (w : World) :
    (es.foldl (bindStep c cell) w).vars cell =
      ((es.getLast?).map Prod.snd).getD (w.vars cell) := by
  induction es generalizing w with
  | nil => rfl
  | cons e t ih =>
    rw [List.foldl_cons, ih]
    cases t with
    | nil => simp [bindStep, Bind, assign, upd]
    | cons e2 t2 =>
      obtain ⟨x, hx⟩ : ∃ x, (e2 :: t2).getLast? = some x :=
        ⟨_, List.getLast?_eq_getLast _ (List.cons_ne_nil _ _)⟩
      simp [List.getLast?_cons_cons, hx]

/-- A key bound to the loop variable stays bound to it through further iterations. -/
theorem foldl_bindStep_keep (c cell : Nat) (key : String) (es : List (String × Value))
    (w : World) (h : (w.containers c).find key = some ⟨cell⟩) :
    ((es.foldl (bindStep c cell) w).containers c).find key = some ⟨cell⟩ := by
  induction es generalizing w with
  | nil => exact h
  | cons e t ih =>
    rw [List.foldl_cons]
    apply ih
    by_cases hk : key = configKey e.1
    · subst hk
      simp [bindStep, Bind, assign, upd, find_Bind_same]
    · simp [bindStep, Bind, assign, upd, find_Bind_other _ _ _ _ hk, h]

/-- Every visited key ends up bound to the one loop variable. -/
theorem foldl_bindStep_mem (c cell : Nat) (es : List (String × Value)) (w : World)
    (k : String) (v : Value) (hmem : (k, v) ∈ es) :
    ((es.foldl (bindStep c cell) w).containers c).find (configKey k) = some ⟨cell⟩ := by
  induction es generalizing w with
  | nil => simp at hmem
  | cons e t ih =>
    rw [List.foldl_cons]
    rcases List.mem_cons.mp hmem with h | h
    · apply foldl_bindStep_keep
      subst h
      simp [bindStep, Bind, assign, upd, find_Bind_same]
    · exact ih _ h

/-- Every config binding made by NewAppWithConfig resolves to the value of the entry that
`range` visited last, whatever its own value is. -/
theorem NewAppWithConfig_resolves_last (env : Env) (dbg : DebugOptions) (w : World)
    (hparse : env.parseFails = false) (hflat : env.flattenFails = false)
    (k : String) (v : Value) (hmem : (k, v) ∈ env.configs)
    (e : String × Value) (hlast : env.configs.getLast? = some e) :
    Make (NewAppWithConfig env dbg w).2 w.nextContainer (configKey k) = Except.ok e.2 := by
  simp only [NewAppWithConfig, hparse, hflat, bindConfigs, declare, Make]
  simp only [Bool.false_eq_true, if_false]
  rw [foldl_bindStep_mem _ _ _ _ k v hmem]
  simp only [foldl_bindStep_vars, hlast]
  rfl

/-! ## Start -/

/-- When the router and a string port resolve, Start runs to ListenAndServe; the fields of
the resulting world. -/
theorem Start_running (env : Env) (a : App) (w : World) (r : Router) (port : String)
    (hr : Make w a.c routerKey = Except.ok (Value.router r))
    (hp : Make w a.c portKey = Except.ok (Value.str port)) :
    (a.Start env w).1 = (if env.listenReturns then Exit.fatal else Exit.serving) ∧
    (a.Start env w).2.trace = w.trace ++ selectionCalls a r ++
      [Event.setDIContainer r a.c,
        Event.listenAndServe (usedServer a w)
          { usedDescriptor env a w r with Handler := Handler.router r, Addr := ":" ++ port }] ∧
    (a.Start env w).2.servers (usedServer a w) =
      { usedDescriptor env a w r with Handler := Handler.router r, Addr := ":" ++ port } ∧
    (a.Start env w).2.containers =
      upd w.containers a.c ((w.containers a.c).Bind appKey ⟨w.nextVar⟩) ∧
    (a.Start env w).2.vars = upd w.vars w.nextVar (Value.app a) := by
  obtain ⟨c, sc, views, dbg⟩ := a
  cases sc with
  | none =>
    simp only [App.Start, hr, Make_setHandler, Make_DefaultServer, hp]
    simp [selectionCalls, usedServer, usedDescriptor, DefaultServer, emit,
      setHandler, setAddr, declare, Bind, upd]
  | some s =>
    simp only [App.Start, hr, Make_setHandler, hp]
    simp [selectionCalls, usedServer, usedDescriptor, emit,
      setHandler, setAddr, declare, Bind, upd]

/-- When the router resolves and the port value is not a string, Start stops at the
narrowing on line 110; the fields of the resulting world. -/
theorem Start_port_panic (env : Env) (a : App) (w : World) (r : Router) (v : Value)
    (hr : Make w a.c routerKey = Except.ok (Value.router r))
    (hv : Make w a.c portKey = Except.ok v) (hns : ∀ s, v ≠ Value.str s) :
    (a.Start env w).1 = Exit.panic conversionPanic ∧
    (a.Start env w).2.trace = w.trace ++ selectionCalls a r ∧
    (a.Start env w).2.servers (usedServer a w) =
      { usedDescriptor env a w r with Handler := Handler.router r } ∧
    (a.Start env w).2.containers = w.containers ∧
    (a.Start env w).2.vars = w.vars := by
  obtain ⟨c, sc, views, dbg⟩ := a
  cases sc with
  | none =>
    simp only [App.Start, hr, Make_setHandler, Make_DefaultServer, hv]
    cases v with
    | str s => exact absurd rfl (hns s)
    | _ =>
      simp [selectionCalls, usedServer, usedDescriptor, DefaultServer, emit, setHandler, upd]
  | some s =>
    simp only [App.Start, hr, Make_setHandler, hv]
    cases v with
    | str s => exact absurd rfl (hns s)
    | _ =>
      simp [selectionCalls, usedServer, usedDescriptor, emit, setHandler, upd]

/-! ## Build: config bindings -/

/-- C1, evaluated on the code: for the flattened map with the entries
("ghast.config.port", "9000") and ("app.config.appName", "demo"), Build succeeds and
afterwards one binding does not return its own value.  Visited in the order port, appName,
`Make("@ghast.config.port")` returns "demo", the value of the other entry; visited in the
order appName, port, `Make("@app.config.appName")` returns "9000".  All closures read the
one loop variable, which holds the value visited last. -/
theorem Build_bindings_share_loop_variable :
    (NewAppWithConfig (sampleEnv twoEntries) ⟨false⟩ World.empty).1 = Except.ok sampleApp ∧
    Make (NewAppWithConfig (sampleEnv twoEntries) ⟨false⟩ World.empty).2 sampleApp.c
      (configKey "ghast.config.port") = Except.ok (Value.str "demo") ∧
    Make (NewAppWithConfig (sampleEnv twoEntries) ⟨false⟩ World.empty).2 sampleApp.c
      (configKey "app.config.appName") = Except.ok (Value.str "demo") ∧
    Make (NewAppWithConfig (sampleEnv twoEntries.reverse) ⟨false⟩ World.empty).2 sampleApp.c
      (configKey "app.config.appName") = Except.ok (Value.str "9000") ∧
    Make (NewAppWithConfig (sampleEnv twoEntries.reverse) ⟨false⟩ World.empty).2 sampleApp.c
      (configKey "ghast.config.port") = Except.ok (Value.str "9000") := by
  decide

/-! ## SetServerConfig -/

/-- SetServerConfig leaves the caller's world and App value as they were: Start afterwards
behaves as if it had not been called. -/
theorem SetServerConfig_discarded (env : Env) (a : App) (cfg : Option Nat) (w : World) :
    (a.SetServerConfig cfg w).2 = w ∧
    a.Start env (a.SetServerConfig cfg w).2 = a.Start env w :=
  ⟨rfl, rfl⟩

/-- C2, evaluated on the code: `app := NewApp(); app.SetRouter(Router 1);
cfg := &http.Server{Addr: ":8080", ...}; app.SetServerConfig(cfg); app.Start()`.
Start asks the router for DefaultServer() and listens on that descriptor (address 1, with
the default's timeouts); the descriptor cfg (address 0) is neither configured nor used. -/
theorem SetServerConfig_then_Start_uses_default :
    (NewApp (sampleEnv portConfig) World.empty).1 = Except.ok sampleApp ∧
    (newServer readyWorld customServer).1 = 0 ∧
    (sampleApp.Start (sampleEnv portConfig)
        (sampleApp.SetServerConfig (some 0) configuredWorld).2).1 = Exit.serving ∧
    (sampleApp.Start (sampleEnv portConfig)
        (sampleApp.SetServerConfig (some 0) configuredWorld).2).2.trace =
      [Event.defaultServer ⟨1⟩, Event.setDIContainer ⟨1⟩ 0,
        Event.listenAndServe 1 ⟨":9000", Handler.router ⟨1⟩, 15, 0, 15, 0, 0, 0⟩] ∧
    (sampleApp.Start (sampleEnv portConfig)
        (sampleApp.SetServerConfig (some 0) configuredWorld).2).2.servers 0 = customServer := by
  decide

/-! ## Start: the descriptor -/

/-- C3: when the router binding resolves to `r` and the port to a string, Start reaches
ListenAndServe on the descriptor it chose (explicit or the router's default), and the
descriptor it listens on has Handler = `r` whatever Handler it carried before, while every
field other than Handler and Addr has the value it had before Start. -/
theorem Start_handler_forced (env : Env) (a : App) (w : World) (r : Router) (port : String)
    (hr : Make w a.c routerKey = Except.ok (Value.router r))
    (hp : Make w a.c portKey = Except.ok (Value.str port)) :
    ∃ d : Server,
      (a.Start env w).2.trace = w.trace ++ selectionCalls a r ++
        [Event.setDIContainer r a.c, Event.listenAndServe (usedServer a w) d] ∧
      (a.Start env w).2.servers (usedServer a w) = d ∧
      d.Handler = Handler.router r ∧
      d.ReadTimeout = (usedDescriptor env a w r).ReadTimeout ∧
      d.ReadHeaderTimeout = (usedDescriptor env a w r).ReadHeaderTimeout ∧
      d.WriteTimeout = (usedDescriptor env a w r).WriteTimeout ∧
      d.IdleTimeout = (usedDescriptor env a w r).IdleTimeout ∧
      d.MaxHeaderBytes = (usedDescriptor env a w r).MaxHeaderBytes ∧
      d.Hooks = (usedDescriptor env a w r).Hooks := by
  obtain ⟨_, htrace, hsrv, _, _⟩ := Start_running env a w r port hr hp
  exact ⟨_, htrace, hsrv, rfl, rfl, rfl, rfl, rfl, rfl, rfl⟩

/-- C3 at an explicit descriptor that carried its own Handler (`other 7`). -/
theorem Start_handler_forced_witness :
    Make configuredWorld explicitApp.c routerKey = Except.ok (Value.router ⟨1⟩) ∧
    Make configuredWorld explicitApp.c portKey = Except.ok (Value.str "9000") ∧
    (usedDescriptor (sampleEnv portConfig) explicitApp configuredWorld ⟨1⟩).Handler =
      Handler.other 7 ∧
    ∃ d : Server,
      (explicitApp.Start (sampleEnv portConfig) configuredWorld).2.trace =
        configuredWorld.trace ++ selectionCalls explicitApp ⟨1⟩ ++
          [Event.setDIContainer ⟨1⟩ explicitApp.c,
            Event.listenAndServe (usedServer explicitApp configuredWorld) d] ∧
      (explicitApp.Start (sampleEnv portConfig) configuredWorld).2.servers
        (usedServer explicitApp configuredWorld) = d ∧
      d.Handler = Handler.router ⟨1⟩ ∧
      d.ReadTimeout =
        (usedDescriptor (sampleEnv portConfig) explicitApp configuredWorld ⟨1⟩).ReadTimeout ∧
      d.ReadHeaderTimeout =
        (usedDescriptor (sampleEnv portConfig) explicitApp configuredWorld
          ⟨1⟩).ReadHeaderTimeout ∧
      d.WriteTimeout =
        (usedDescriptor (sampleEnv portConfig) explicitApp configuredWorld ⟨1⟩).WriteTimeout ∧
      d.IdleTimeout =
        (usedDescriptor (sampleEnv portConfig) explicitApp configuredWorld ⟨1⟩).IdleTimeout ∧
      d.MaxHeaderBytes =
        (usedDescriptor (sampleEnv portConfig) explicitApp configuredWorld ⟨1⟩).MaxHeaderBytes ∧
      d.Hooks = (usedDescriptor (sampleEnv portConfig) explicitApp configuredWorld ⟨1⟩).Hooks :=
  ⟨by decide, by decide, by decide,
    Start_handler_forced (sampleEnv portConfig) explicitApp configuredWorld ⟨1⟩ "9000"
      (by decide) (by decide)⟩

/-! ## SetRouter -/

/-- After SetRouter the router key resolves to the router just passed. -/
theorem Make_SetRouter (a : App) (r : Router) (w : World) :
    Make (a.SetRouter r w) a.c routerKey = Except.ok (Value.router r) := by
  simp [App.SetRouter, Make_Bind_same, declare, upd]

/-- SetRouter makes no external call and allocates no descriptor. -/
theorem SetRouter_frame (a : App) (r : Router) (w : World) :
    (a.SetRouter r w).trace = w.trace ∧ (a.SetRouter r w).servers = w.servers ∧
    (a.SetRouter r w).nextServer = w.nextServer :=
  ⟨rfl, rfl, rfl⟩

/-- C4: after `SetRouter(R1); SetRouter(R2)` the router key resolves to R2, and a Start that
finds a string port calls only R2: it asks R2 for the default descriptor (when none is
explicit), hands the container to R2 and listens on a descriptor whose Handler is R2.
These are all the external calls Start makes, so R1 is neither installed nor invoked. -/
theorem SetRouter_last_wins (env : Env) (a : App) (w : World) (R1 R2 : Router)
    (port : String)
    (hp : Make (a.SetRouter R2 (a.SetRouter R1 w)) a.c portKey = Except.ok (Value.str port)) :
    Make (a.SetRouter R2 (a.SetRouter R1 w)) a.c routerKey = Except.ok (Value.router R2) ∧
    (a.Start env (a.SetRouter R2 (a.SetRouter R1 w))).2.trace =
      w.trace ++ selectionCalls a R2 ++
        [Event.setDIContainer R2 a.c,
          Event.listenAndServe (usedServer a w)
            { usedDescriptor env a w R2 with
              Handler := Handler.router R2, Addr := ":" ++ port }] ∧
    ((a.Start env (a.SetRouter R2 (a.SetRouter R1 w))).2.servers (usedServer a w)).Handler =
      Handler.router R2 := by
  have hr := Make_SetRouter a R2 (a.SetRouter R1 w)
  obtain ⟨_, htrace, hsrv, _, _⟩ :=
    Start_running env a (a.SetRouter R2 (a.SetRouter R1 w)) R2 port hr hp
  refine ⟨hr, ?_, ?_⟩
  · rw [htrace]; rfl
  · have hs : usedServer a (a.SetRouter R2 (a.SetRouter R1 w)) = usedServer a w := rfl
    rw [← hs, hsrv]

/-- C4 at R1 = Router 1, R2 = Router 2 on the freshly built sample application. -/
theorem SetRouter_last_wins_witness :
    Make (sampleApp.SetRouter ⟨2⟩ (sampleApp.SetRouter ⟨1⟩ builtWorld)) sampleApp.c portKey =
      Except.ok (Value.str "9000") ∧
    Make (sampleApp.SetRouter ⟨2⟩ (sampleApp.SetRouter ⟨1⟩ builtWorld)) sampleApp.c routerKey =
      Except.ok (Value.router ⟨2⟩) ∧
    (sampleApp.Start (sampleEnv portConfig)
        (sampleApp.SetRouter ⟨2⟩ (sampleApp.SetRouter ⟨1⟩ builtWorld))).2.trace =
      builtWorld.trace ++ selectionCalls sampleApp ⟨2⟩ ++
        [Event.setDIContainer ⟨2⟩ sampleApp.c,
          Event.listenAndServe (usedServer sampleApp builtWorld)
            { usedDescriptor (sampleEnv portConfig) sampleApp builtWorld ⟨2⟩ with
              Handler := Handler.router ⟨2⟩, Addr := ":" ++ "9000" }] ∧
    ((sampleApp.Start (sampleEnv portConfig)
        (sampleApp.SetRouter ⟨2⟩ (sampleApp.SetRouter ⟨1⟩ builtWorld))).2.servers
          (usedServer sampleApp builtWorld)).Handler = Handler.router ⟨2⟩ :=
  ⟨by decide,
    SetRouter_last_wins (sampleEnv portConfig) sampleApp builtWorld ⟨1⟩ ⟨2⟩ "9000" (by decide)⟩

/-! ## Start: failures -/

/-- C5: if the container has no binding under "ghast/router", Start ends in a panic and the
world is exactly the one before the call: no binding was added ("ghast/app" included), no
call reached a router or a server (the trace is unchanged), nothing is listening. -/
theorem Start_router_unbound (env : Env) (a : App) (w : World)
    (h : (w.containers a.c).find routerKey = none) :
    a.Start env w = (Exit.panic routerPanic, w) ∧
    (a.Start env w).2.containers = w.containers ∧
    (a.Start env w).2.trace = w.trace := by
  have hm : Make w a.c routerKey = Except.error routerKey := by simp [Make, h]
  have hs : a.Start env w = (Exit.panic routerPanic, w) := by simp [App.Start, hm]
  rw [hs]
  exact ⟨rfl, rfl, rfl⟩

/-- C5 on the freshly built sample application, before any SetRouter. -/
theorem Start_router_unbound_witness :
    (builtWorld.containers sampleApp.c).find routerKey = none ∧
    (sampleApp.Start (sampleEnv portConfig) builtWorld =
        (Exit.panic routerPanic, builtWorld) ∧
      (sampleApp.Start (sampleEnv portConfig) builtWorld).2.containers =
        builtWorld.containers ∧
      (sampleApp.Start (sampleEnv portConfig) builtWorld).2.trace = builtWorld.trace) :=
  ⟨by decide, Start_router_unbound (sampleEnv portConfig) sampleApp builtWorld (by decide)⟩

/-! ## View -/

/-- Whenever GetTemplate reports an error, View writes status 500 and then still calls
Execute on the template value GetTemplate returned. -/
theorem View_error_still_executes (env : Env) (name : String) (vars : VarMap)
    (data : Value) (w : World) (c : Nat) (a : App)
    (hc : w.appContext = some c) (ha : GetApp w c = Except.ok a)
    (herr : (env.getTemplate a.GetViewSet name).2 = true) :
    (w.trace ++ [Event.getTemplate a.GetViewSet name, Event.writeHeader 500,
        Event.execute (env.getTemplate a.GetViewSet name).1]) <+:
      (GhastController.View env name vars data w).2.trace := by
  simp only [GhastController.View, GhastController.Container, hc, ha, herr, if_true]
  cases hx : env.execute (env.getTemplate a.GetViewSet name).1 vars data with
  | none => simp [emit]
  | some out =>
    by_cases h1 : out.1 = "" <;> by_cases h2 : out.2 = true <;>
      simp [emit, h1, h2, List.prefix_append]

/-- C6, evaluated on the code: in the running sample application no template can be found
(GetTemplate returns a nil template and an error).  `View("missing.jet", w, vars, nil)`
writes status 500 and then goes on to call Execute on the nil template, which panics: View
does not return normally. -/
theorem View_missing_template_executes :
    GetApp runningWorld sampleApp.c = Except.ok sampleApp ∧
    (sampleEnv portConfig).getTemplate sampleApp.GetViewSet "missing.jet" = (none, true) ∧
    (GhastController.View (sampleEnv portConfig) "missing.jet" [] Value.nil runningWorld).1 =
      Exit.panic "Execute" ∧
    (GhastController.View (sampleEnv portConfig) "missing.jet" [] Value.nil
        runningWorld).2.trace =
      runningWorld.trace ++ [Event.getTemplate 0 "missing.jet", Event.writeHeader 500,
        Event.execute none] := by
  decide

/-! ## Key namespaces -/

/-- C7: for every flattened config key `k` the container key `"@"+k` starts with the
character '@' and differs from "ghast/router" and from "ghast/app"; binding it leaves the
router and app bindings of any container as they were, and binding the router key or the app
key leaves the binding of `"@"+k` as it was. -/
theorem configKey_namespace (k : String) :
    (configKey k).data.head? = some '@' ∧
    (configKey k).get 0 = '@' ∧
    configKey k ≠ routerKey ∧
    configKey k ≠ appKey ∧
    (∀ (c : Container) (p : Producer),
      (c.Bind (configKey k) p).find routerKey = c.find routerKey ∧
      (c.Bind (configKey k) p).find appKey = c.find appKey ∧
      (c.Bind routerKey p).find (configKey k) = c.find (configKey k) ∧
      (c.Bind appKey p).find (configKey k) = c.find (configKey k)) := by
  refine ⟨by simp [configKey_data], ?_, configKey_ne_routerKey k, configKey_ne_appKey k, ?_⟩
  · simp [String.get, configKey_data, String.utf8GetAux]
  · intro c p
    exact ⟨find_Bind_other c _ _ p (configKey_ne_routerKey k).symm,
      find_Bind_other c _ _ p (configKey_ne_appKey k).symm,
      find_Bind_other c _ _ p (configKey_ne_routerKey k),
      find_Bind_other c _ _ p (configKey_ne_appKey k)⟩

/-! ## Start: the app binding, the address, the port narrowing -/

/-- After a bind the container holds exactly one entry under the bound key. -/
theorem Bind_unique (c : Container) (k : String) (p : Producer) :
    (c.Bind k p).filter (fun e => e.1 == k) = [(k, p)] := by
  simp [Container.Bind, List.filter_cons, List.filter_filter]

/-- C8: when the router binding resolves and the port is a string, then after Start GetApp
on the app's container returns the receiver `a` itself (same container pointer, same view
set handle, all fields equal); the container holds exactly one binding under "ghast/app",
the one Start made, whatever was bound there before. -/
theorem Start_binds_app (env : Env) (a : App) (w : World) (r : Router) (port : String)
    (hr : Make w a.c routerKey = Except.ok (Value.router r))
    (hp : Make w a.c portKey = Except.ok (Value.str port)) :
    GetApp (a.Start env w).2 a.c = Except.ok a ∧
    (GetApp (a.Start env w).2 a.c).map App.GetViewSet = Except.ok a.GetViewSet ∧
    (GetApp (a.Start env w).2 a.c).map App.c = Except.ok a.c ∧
    ((a.Start env w).2.containers a.c).filter (fun e => e.1 == appKey) =
      [(appKey, ⟨w.nextVar⟩)] := by
  obtain ⟨_, _, _, hcont, hvars⟩ := Start_running env a w r port hr hp
  have hg : GetApp (a.Start env w).2 a.c = Except.ok a := by
    simp [GetApp, Make, hcont, hvars, upd, find_Bind_same]
  refine ⟨hg, ?_, ?_, ?_⟩
  · rw [hg]; rfl
  · rw [hg]; rfl
  · rw [hcont]
    simp only [upd, if_true]
    exact Bind_unique _ _ _

/-- C8 on the sample application with router 1 and port "9000". -/
theorem Start_binds_app_witness :
    Make readyWorld sampleApp.c routerKey = Except.ok (Value.router ⟨1⟩) ∧
    Make readyWorld sampleApp.c portKey = Except.ok (Value.str "9000") ∧
    (GetApp (sampleApp.Start (sampleEnv portConfig) readyWorld).2 sampleApp.c =
        Except.ok sampleApp ∧
      (GetApp (sampleApp.Start (sampleEnv portConfig) readyWorld).2 sampleApp.c).map
        App.GetViewSet = Except.ok sampleApp.GetViewSet ∧
      (GetApp (sampleApp.Start (sampleEnv portConfig) readyWorld).2 sampleApp.c).map
        App.c = Except.ok sampleApp.c ∧
      ((sampleApp.Start (sampleEnv portConfig) readyWorld).2.containers sampleApp.c).filter
        (fun e => e.1 == appKey) = [(appKey, ⟨readyWorld.nextVar⟩)]) :=
  ⟨by decide, by decide,
    Start_binds_app (sampleEnv portConfig) sampleApp readyWorld ⟨1⟩ "9000"
      (by decide) (by decide)⟩

/-- C9: when the router binding resolves and the container resolves the port key to the
string `port`, Start leaves the descriptor it uses with Addr = ":" ++ port, whatever Addr
the descriptor carried, and that is the address in force when ListenAndServe is called. -/
theorem Start_sets_addr (env : Env) (a : App) (w : World) (r : Router) (port : String)
    (hr : Make w a.c routerKey = Except.ok (Value.router r))
    (hp : Make w a.c portKey = Except.ok (Value.str port)) :
    ((a.Start env w).2.servers (usedServer a w)).Addr = ":" ++ port ∧
    ∃ d : Server, d.Addr = ":" ++ port ∧
      (a.Start env w).2.trace.getLast? = some (Event.listenAndServe (usedServer a w) d) := by
  obtain ⟨_, htrace, hsrv, _, _⟩ := Start_running env a w r port hr hp
  refine ⟨by rw [hsrv], (a.Start env w).2.servers (usedServer a w), by rw [hsrv], ?_⟩
  rw [htrace, hsrv]
  simp only [List.getLast?_append, List.getLast?_cons_cons, List.getLast?_singleton]
  rfl

/-- C9 at port "9000" on an explicit descriptor that carried Addr ":8080". -/
theorem Start_sets_addr_witness :
    Make configuredWorld explicitApp.c routerKey = Except.ok (Value.router ⟨1⟩) ∧
    Make configuredWorld explicitApp.c portKey = Except.ok (Value.str "9000") ∧
    (configuredWorld.servers (usedServer explicitApp configuredWorld)).Addr = ":8080" ∧
    ":" ++ "9000" = ":9000" ∧
    (((explicitApp.Start (sampleEnv portConfig) configuredWorld).2.servers
        (usedServer explicitApp configuredWorld)).Addr = ":" ++ "9000" ∧
      ∃ d : Server, d.Addr = ":" ++ "9000" ∧
        (explicitApp.Start (sampleEnv portConfig) configuredWorld).2.trace.getLast? =
          some (Event.listenAndServe (usedServer explicitApp configuredWorld) d)) :=
  ⟨by decide, by decide, by decide, by decide,
    Start_sets_addr (sampleEnv portConfig) explicitApp configuredWorld ⟨1⟩ "9000"
      (by decide) (by decide)⟩

/-- C10: when the router binding resolves and the value bound under "@ghast.config.port"
is not a string, Start ends in the panic of the failed narrowing.  By then the descriptor's
Handler is already the router (its other fields, Addr included, are untouched); the
container is as before the call (no "ghast/app" binding was made) and the only external
call made is the request for the default descriptor, if any: the container was not handed
to the router and ListenAndServe was not called. -/
theorem Start_port_not_string (env : Env) (a : App) (w : World) (r : Router) (v : Value)
    (hr : Make w a.c routerKey = Except.ok (Value.router r))
    (hv : Make w a.c portKey = Except.ok v) (hns : ∀ s, v ≠ Value.str s) :
    (a.Start env w).1 = Exit.panic conversionPanic ∧
    (a.Start env w).2.trace = w.trace ++ selectionCalls a r ∧
    (a.Start env w).2.servers (usedServer a w) =
      { usedDescriptor env a w r with Handler := Handler.router r } ∧
    (a.Start env w).2.containers = w.containers :=
  have h := Start_port_panic env a w r v hr hv hns
  ⟨h.1, h.2.1, h.2.2.1, h.2.2.2.1⟩

/-- C10 at the integer 9000 of the scaffolded config. -/
theorem Start_port_not_string_witness :
    Make intPortWorld sampleApp.c routerKey = Except.ok (Value.router ⟨1⟩) ∧
    Make intPortWorld sampleApp.c portKey = Except.ok (Value.int 9000) ∧
    (∀ s, Value.int 9000 ≠ Value.str s) ∧
    ((sampleApp.Start (sampleEnv intPortConfig) intPortWorld).1 =
        Exit.panic conversionPanic ∧
      (sampleApp.Start (sampleEnv intPortConfig) intPortWorld).2.trace =
        intPortWorld.trace ++ selectionCalls sampleApp ⟨1⟩ ∧
      (sampleApp.Start (sampleEnv intPortConfig) intPortWorld).2.servers
          (usedServer sampleApp intPortWorld) =
        { usedDescriptor (sampleEnv intPortConfig) sampleApp intPortWorld ⟨1⟩ with
          Handler := Handler.router ⟨1⟩ } ∧
      (sampleApp.Start (sampleEnv intPortConfig) intPortWorld).2.containers =
        intPortWorld.containers) :=
  ⟨by decide, by decide, fun _ h => Value.noConfusion h,
    Start_port_not_string (sampleEnv intPortConfig) sampleApp intPortWorld ⟨1⟩
      (Value.int 9000) (by decide) (by decide) (fun _ h => Value.noConfusion h)⟩

end Ghast
